import Mathlib

/-!
Verification of the innsight lint-report scripts.

The repository consists of three Python scripts under frontend/scripts,
each a read-transform-print pipeline over a JSON lint report:

  * lint_files.py          -- prints the filePath of every flagged entry
  * lint_report_summary.py -- header plus one line per flagged entry, capped at 20
  * lint_summary.py        -- header plus a full per-message block per flagged entry

This file gives a shallow embedding of the three scripts.  JSON documents
are modelled by the inductive `Json`; the relevant pieces of Python
semantics (dict `.get`, subscript, `len`, iteration, truthiness, `str`)
are modelled by explicit functions returning `Except String` where the
Python operation can raise (the `String` is the exception class name).
Each script becomes a function `ReportFile → Outcome`, where `ReportFile`
abstracts the on-disk state of lint-report.json (missing / present but
not valid JSON / parsed value) and `Outcome` records either the printed
lines on success, a `SystemExit` with its message (non-zero exit status,
message on stderr, nothing printed to stdout), or an uncaught exception
together with the lines printed before the exception was raised.
-/

/-- JSON values as produced by `json.loads`: an object is a parsed Python
dict, so its keys are unique and `arr`/`obj` hold the document order. -/
inductive Json where
  | null
  | bool (b : Bool)
  | num (n : Int)
  | str (s : String)
  | arr (xs : List Json)
  | obj (kvs : List (String × Json))

/-- Lookup of a key in a parsed JSON object (Python dict lookup). -/
def dictGet (kvs : List (String × Json)) (k : String) : Option Json :=
  (kvs.find? (fun p => p.1 == k)).map (fun p => p.2)

/-- Truthiness of a Python value, as used by `if`/`or`: `None`, `False`,
`0`, `""`, `[]` and `{}` are falsy, everything else is truthy. -/
def truthy : Json → Bool
  | .null => false
  | .bool b => b
  | .num n => !(n == 0)
  | .str s => !s.isEmpty
  | .arr xs => !xs.isEmpty
  | .obj kvs => !kvs.isEmpty

/-- Truthiness of the result of `dict.get(k)`: absence yields `None`,
which is falsy. -/
def optTruthy : Option Json → Bool
  | none => false
  | some j => truthy j

/-- Python `e.get(k)`: returns the value or `None`; raises
`AttributeError` when `e` is not a dict. -/
def pyGet : Json → String → Except String (Option Json)
  | .obj kvs, k => .ok (dictGet kvs k)
  | _, _ => .error ("AttributeError")

/-- Python `e.get(k, d)`: the default is used only when the key is
entirely absent; a key bound to `None` returns `None`. -/
def pyGetD (e : Json) (k : String) (d : Json) : Except String Json := do
  let o ← pyGet e k
  pure (o.getD d)

/-- Python `e[k]` for a string key: `KeyError` when absent, `TypeError`
when `e` is not a dict. -/
def pySubscript : Json → String → Except String Json
  | .obj kvs, k =>
    match dictGet kvs k with
    | some v => .ok v
    | none => .error ("KeyError")
  | _, _ => .error ("TypeError")

/-- Python `len`: length of a list, string or dict; `TypeError` otherwise. -/
def pyLen : Json → Except String Nat
  | .arr xs => .ok xs.length
  | .str s => .ok s.length
  | .obj kvs => .ok kvs.length
  | _ => .error ("TypeError")

/-- Python `for x in j`: lists yield their elements, strings their
one-character substrings, dicts their keys; other values raise
`TypeError`. -/
def pyIter : Json → Except String (List Json)
  | .arr xs => .ok xs
  | .str s => .ok (s.data.map (fun c => Json.str (String.mk [c])))
  | .obj kvs => .ok (kvs.map (fun p => Json.str p.1))
  | _ => .error ("TypeError")

/-- Python `repr`.  Escaping inside quoted strings is not modelled. -/
def pyRepr : Json → String
  | .null => "None"
  | .bool b => cond b ("True") ("False")
  | .num n => toString n
  | .str s => "\x27" ++ s ++ "\x27"
  | .arr xs =>
    "[" ++ String.intercalate (", ") (xs.attach.map (fun x => pyRepr x.1)) ++ "]"
  | .obj kvs =>
    "\x7b" ++
      String.intercalate (", ")
        (kvs.attach.map (fun p => "\x27" ++ p.1.1 ++ "\x27: " ++ pyRepr p.1.2)) ++
      "\x7d"
decreasing_by
  · simp_wf
    have := List.sizeOf_lt_of_mem x.2
    omega
  · simp_wf
    obtain ⟨⟨a, b⟩, hm⟩ := p
    have := List.sizeOf_lt_of_mem hm
    simp only [Prod.mk.sizeOf_spec] at this
    simp only []
    omega

/-- Python `str` as used by `print` and f-string interpolation: `None`,
booleans, integers and strings print directly; lists and dicts print via
`repr` of their elements. -/
def pyStr : Json → String
  | .null => "None"
  | .bool b => cond b ("True") ("False")
  | .num n => toString n
  | .str s => s
  | j => pyRepr j

/-- Lines produced by a single Python `print(s)`: the payload is split at
embedded newline characters (structural counterpart of splitting on the
newline, so that concrete outputs evaluate by `rfl`). -/
def emitAux : List Char → List (List Char)
  | [] => [[]]
  | c :: cs =>
    let r := emitAux cs
    if c = Char.ofNat 10 then [] :: r
    else
      match r with
      | [] => [[c]]
      | l :: ls => (c :: l) :: ls

/-- Lines printed by `print(s)` as a list of physical lines. -/
def emit (s : String) : List String := (emitAux s.data).map (fun l => String.mk l)

/-- Filter condition shared verbatim by all three scripts:
`entry.get("errorCount") or entry.get("warningCount")`, with Python
evaluation order and exceptions. -/
def flaggedE (e : Json) : Except String Bool := do
  let a ← pyGet e ("errorCount")
  if optTruthy a then pure true
  else do
    let b ← pyGet e ("warningCount")
    pure (optTruthy b)

/-- Comprehension `[entry for entry in data if entry.get("errorCount") or
entry.get("warningCount")]` from lint_report_summary.py line 9 and
lint_summary.py line 9. -/
def entriesComp : List Json → Except String (List Json)
  | [] => .ok []
  | e :: rest => do
    let f ← flaggedE e
    let tail ← entriesComp rest
    pure (if f then e :: tail else tail)

/-- Comprehension `[entry["filePath"] for entry in data if
entry.get("errorCount") or entry.get("warningCount")]` from
lint_files.py line 6: the condition is evaluated before the element
expression, so the subscript only runs on entries that pass the filter. -/
def filesComp : List Json → Except String (List Json)
  | [] => .ok []
  | e :: rest => do
    let f ← flaggedE e
    if f then do
      let p ← pySubscript e ("filePath")
      let tail ← filesComp rest
      pure (p :: tail)
    else filesComp rest

/-- On-disk state of frontend/lint-report.json as seen by one invocation:
absent, present but rejected by `json.loads`, or parsed to a value. -/
inductive ReportFile where
  | missing
  | invalidJson
  | content (j : Json)

/-- Result of one script invocation.  `ok` is exit status 0 with the
printed lines; `exitErr` is `raise SystemExit(msg)` (exit status 1, the
message on stderr, nothing on stdout); `exc` is an uncaught exception of
the named class, with the lines printed before it was raised. -/
inductive Outcome where
  | ok (lines : List String)
  | exitErr (msg : String)
  | exc (e : String) (lines : List String)

/-- Embedding of lint_files.py: no existence check, so a missing report
surfaces as `FileNotFoundError` from `read_text`; then `json.loads`, the
filtering comprehension, and one `print(path)` per element. -/
def lint_files : ReportFile → Outcome
  | .missing => .exc ("FileNotFoundError") []
  | .invalidJson => .exc ("JSONDecodeError") []
  | .content j =>
    match pyIter j with
    | .error e => .exc e []
    | .ok xs =>
      match filesComp xs with
      | .error e => .exc e []
      | .ok paths => .ok ((paths.map (fun p => emit (pyStr p))).flatten)

/-- Header line `f"{n} files with issues"` shared by both summary scripts. -/
def headerLine (n : Nat) : String := toString n ++ " files with issues"

/-- Body of the per-entry loop of lint_report_summary.py lines 12-14:
`count = len(entry.get("messages", []))` then
`print(f"{entry['filePath']} - {count} messages")`, in that evaluation
order. -/
def compactEntry (e : Json) : Except String String := do
  let m ← pyGetD e ("messages") (Json.arr [])
  let count ← pyLen m
  let p ← pySubscript e ("filePath")
  pure (pyStr p ++ " - " ++ toString count ++ " messages")

/-- Runs a line-producing loop body over a list, collecting the printed
lines; an exception stops the loop, keeping the lines printed so far. -/
def runLines (f : Json → Except String String) : List Json → List String × Option String
  | [] => ([], none)
  | e :: rest =>
    match f e with
    | .error exc => ([], some exc)
    | .ok s =>
      let r := runLines f rest
      (emit s ++ r.1, r.2)

/-- Embedding of lint_report_summary.py: existence check with
`SystemExit`, `json.loads`, the filter comprehension, the header print,
then the loop over `entries[:20]`. -/
def lint_report_summary : ReportFile → Outcome
  | .missing => .exitErr ("lint-report.json not found. Run eslint with JSON output first.")
  | .invalidJson => .exc ("JSONDecodeError") []
  | .content j =>
    match pyIter j with
    | .error e => .exc e []
    | .ok xs =>
      match entriesComp xs with
      | .error e => .exc e []
      | .ok entries =>
        match runLines compactEntry (entries.take 20) with
        | (ls, none) => .ok (headerLine entries.length :: ls)
        | (ls, some e) => .exc e (headerLine entries.length :: ls)

/-- Body of the inner message loop of lint_summary.py lines 14-19: the
four `msg.get` calls with their defaults, then
`print(f"  {rule}: {message} @{line}:{col}")`. -/
def msgLine (m : Json) : Except String String := do
  let rule ← pyGetD m ("ruleId") (Json.str ("<no-rule>"))
  let message ← pyGetD m ("message") (Json.str ("<no-message>"))
  let line ← pyGetD m ("line") (Json.num 0)
  let col ← pyGetD m ("column") (Json.num 0)
  pure ("  " ++ pyStr rule ++ ": " ++ pyStr message ++ " @" ++ pyStr line ++ ":" ++ pyStr col)

/-- Body of the per-entry loop of lint_summary.py lines 11-19:
`print(f"\n{entry['filePath']}")` (the leading newline makes the blank
separator line), then the message loop over `entry.get("messages", [])`.
Returns the lines printed for this entry and the exception, if any, that
stopped the script inside it. -/
def detailedEntry (e : Json) : List String × Option String :=
  match pySubscript e ("filePath") with
  | .error exc => ([], some exc)
  | .ok p =>
    let head := emit ("\n" ++ pyStr p)
    match pyGetD e ("messages") (Json.arr []) with
    | .error exc => (head, some exc)
    | .ok m =>
      match pyIter m with
      | .error exc => (head, some exc)
      | .ok ms =>
        let r := runLines msgLine ms
        (head ++ r.1, r.2)

/-- Runs a block-producing loop body over a list, concatenating the
blocks; an exception stops the loop after that entry's partial block. -/
def runBlocks (f : Json → List String × Option String) : List Json → List String × Option String
  | [] => ([], none)
  | e :: rest =>
    match f e with
    | (ls, some exc) => (ls, some exc)
    | (ls, none) =>
      let r := runBlocks f rest
      (ls ++ r.1, r.2)

/-- Embedding of lint_summary.py: existence check with `SystemExit`,
`json.loads`, the filter comprehension, the header print, then the
uncapped per-entry loop. -/
def lint_summary : ReportFile → Outcome
  | .missing => .exitErr ("lint-report.json not found. Run eslint with JSON output first.")
  | .invalidJson => .exc ("JSONDecodeError") []
  | .content j =>
    match pyIter j with
    | .error e => .exc e []
    | .ok xs =>
      match entriesComp xs with
      | .error e => .exc e []
      | .ok entries =>
        match runBlocks detailedEntry entries with
        | (ls, none) => .ok (headerLine entries.length :: ls)
        | (ls, some e) => .exc e (headerLine entries.length :: ls)

/-- Predicate for a value being a parsed JSON object. -/
def isObj : Json → Bool
  | .obj _ => true
  | _ => false

/-- Pure form of the code's filter condition on an object entry: the
truthiness test of `errorCount` then `warningCount`. -/
def codeFlagged : Json → Bool
  | .obj kvs => optTruthy (dictGet kvs ("errorCount")) || optTruthy (dictGet kvs ("warningCount"))
  | _ => false

/-- Precondition of the spec data model on one count field: absent, or a
non-negative integer. -/
def countOk : Option Json → Bool
  | none => true
  | some (Json.num n) => decide (0 ≤ n)
  | some _ => false

/-- Precondition of the spec data model on one FileEntry: an object whose
errorCount and warningCount, when present, are non-negative integers. -/
def entryCountsOk : Json → Bool
  | .obj kvs => countOk (dictGet kvs ("errorCount")) && countOk (dictGet kvs ("warningCount"))
  | _ => false

/-- Count field of an entry as the spec reads it: the integer value when
present, zero when absent. -/
def specCount (kvs : List (String × Json)) (k : String) : Int :=
  match dictGet kvs k with
  | some (Json.num n) => n
  | _ => 0

/-- Flagged predicate as the spec states it: `errorCount > 0 OR
warningCount > 0`, absent counts treated as zero. -/
def specFlagged : Json → Bool
  | .obj kvs =>
    decide (0 < specCount kvs ("errorCount")) || decide (0 < specCount kvs ("warningCount"))
  | _ => false

/-- IssueFilter as the spec states it: the subsequence of flagged
entries, relative order preserved. -/
def issueFilterSpec (data : List Json) : List Json := data.filter specFlagged

/-- Subscript `entry["filePath"]` applied to each entry of a list in
order, stopping at the first failure: the element expression of the
lint_files comprehension, separated from its filter. -/
def mapPaths : List Json → Except String (List Json)
  | [] => .ok []
  | e :: rest => do
    let p ← pySubscript e ("filePath")
    let tail ← mapPaths rest
    pure (p :: tail)

/-- Absence of the newline character in a string, so that one `print`
emits exactly one physical line. -/
def noNl (s : String) : Bool := !(s.data.contains (Char.ofNat 10))

/-- Value of the filePath key of an object entry (`null` when absent,
which never happens for well-formed entries). -/
def pathOf : Json → Json
  | .obj kvs => (dictGet kvs ("filePath")).getD .null
  | _ => .null

/-- Value of the messages key of an object entry, empty list when
absent: the `entry.get("messages", [])` read shared by both summaries. -/
def msgsOf : Json → Json
  | .obj kvs => (dictGet kvs ("messages")).getD (Json.arr [])
  | _ => .arr []

/-- Python `len` of the messages value on the values it accepts. -/
def countOfMsgs (e : Json) : Nat :=
  match msgsOf e with
  | .arr ms => ms.length
  | .str s => s.length
  | .obj kvs => kvs.length
  | _ => 0

/-- Line printed by CompactSummary for one entry:
`f"{entry['filePath']} - {count} messages"`. -/
def compactLine (e : Json) : String :=
  pyStr (pathOf e) ++ " - " ++ toString (countOfMsgs e) ++ " messages"

/-- Field of an object with a default, as a total function (the pure
counterpart of `pyGetD` on objects). -/
def objFieldD (e : Json) (k : String) (d : Json) : Json :=
  match e with
  | .obj kvs => (dictGet kvs k).getD d
  | _ => d

/-- Line printed by DetailedSummary for one message:
`f"  {rule}: {message} @{line}:{col}"` with the four defaults. -/
def msgLineStr (m : Json) : String :=
  "  " ++ pyStr (objFieldD m ("ruleId") (Json.str ("<no-rule>"))) ++ ": " ++
    pyStr (objFieldD m ("message") (Json.str ("<no-message>"))) ++ " @" ++
    pyStr (objFieldD m ("line") (Json.num 0)) ++ ":" ++
    pyStr (objFieldD m ("column") (Json.num 0))

/-- Scalar JSON values whose Python `str` is a single line: `null`,
booleans, integers, and strings free of newlines. -/
def scalarNoNl : Json → Bool
  | .null => true
  | .bool _ => true
  | .num _ => true
  | .str s => noNl s
  | _ => false

/-- Condition on one optional message field: absent, or a single-line
scalar. -/
def fieldOk (kvs : List (String × Json)) (k : String) : Bool :=
  match dictGet kvs k with
  | none => true
  | some v => scalarNoNl v

/-- Well-formedness of one message for rendering: an object whose four
read fields are absent or single-line scalars. -/
def msgRenderOk : Json → Bool
  | .obj kvs =>
    fieldOk kvs ("ruleId") && fieldOk kvs ("message") &&
      fieldOk kvs ("line") && fieldOk kvs ("column")
  | _ => false

/-- Well-formedness of one FileEntry for rendering: an object whose
filePath is a newline-free string and whose messages key is absent or a
list of well-formed messages. -/
def entryRenderOk : Json → Bool
  | .obj kvs =>
    (match dictGet kvs ("filePath") with
     | some (Json.str s) => noNl s
     | _ => false) &&
    (match dictGet kvs ("messages") with
     | none => true
     | some (Json.arr ms) => ms.all msgRenderOk
     | some _ => false)
  | _ => false

/-- Predicate for an outcome that is a `SystemExit` with a message. -/
def isSystemExit : Outcome → Bool
  | .exitErr _ => true
  | _ => false

/-- Predicate for an outcome that is an uncaught exception raised before
any line was printed. -/
def isExcEmpty : Outcome → Bool
  | .exc _ ls => ls.isEmpty
  | _ => false

/-- Parsed top-level values that are not an array of objects and on
which the filtering comprehension (or the iteration feeding it) raises:
everything except arrays of objects, the empty object, and the empty
string. -/
def badTop : Json → Bool
  | .arr xs => xs.any (fun e => !(isObj e))
  | .obj kvs => !kvs.isEmpty
  | .str s => !(s.data.isEmpty)
  | _ => true

/-- Report of Scenario D: 25 entries, all flagged, no messages. -/
def report25 : List Json :=
  (List.range 25).map
    (fun i => Json.obj [("filePath", Json.str ("f" ++ toString i)), ("errorCount", Json.num 1)])

theorem flaggedE_obj (kvs : List (String × Json)) :
    flaggedE (.obj kvs) = .ok (codeFlagged (.obj kvs)) := by
  simp only [flaggedE, pyGet, codeFlagged, bind, Except.bind, pure, Except.pure]
  cases optTruthy (dictGet kvs ("errorCount")) <;> simp

theorem flaggedE_spec (e : Json) (h : entryCountsOk e = true) :
    flaggedE e = .ok (specFlagged e) := by
  cases e with
  | null => exact absurd h (by simp [entryCountsOk])
  | bool b => exact absurd h (by simp [entryCountsOk])
  | num n => exact absurd h (by simp [entryCountsOk])
  | str s => exact absurd h (by simp [entryCountsOk])
  | arr xs => exact absurd h (by simp [entryCountsOk])
  | obj kvs =>
    rw [flaggedE_obj]
    simp only [entryCountsOk, Bool.and_eq_true] at h
    obtain ⟨h1, h2⟩ := h
    have count_eq : ∀ k, countOk (dictGet kvs k) = true →
        optTruthy (dictGet kvs k) = decide (0 < specCount kvs k) := by
      intro k hk
      cases hg : dictGet kvs k with
      | none => simp [optTruthy, specCount, hg]
      | some v =>
        rw [hg] at hk
        cases v with
        | num n =>
          simp only [optTruthy, truthy, specCount, hg]
          simp only [countOk, decide_eq_true_eq] at hk
          rw [Bool.eq_iff_iff]
          simp
          omega
        | null => simp [countOk] at hk
        | bool b => simp [countOk] at hk
        | str s => simp [countOk] at hk
        | arr xs => simp [countOk] at hk
        | obj kvs2 => simp [countOk] at hk
    simp only [codeFlagged, specFlagged, count_eq _ h1, count_eq _ h2]

theorem entriesComp_spec (data : List Json) (h : ∀ e ∈ data, entryCountsOk e = true) :
    entriesComp data = .ok (issueFilterSpec data) := by
  induction data with
  | nil => rfl
  | cons e rest ih =>
    have he := h e (by simp)
    have hrest := ih (fun x hx => h x (by simp [hx]))
    simp only [entriesComp, flaggedE_spec e he, issueFilterSpec, List.filter,
      bind, Except.bind, pure, Except.pure, hrest] at *
    cases specFlagged e <;> simp [issueFilterSpec, hrest, bind, Except.bind]

theorem filesComp_spec (data : List Json) (h : ∀ e ∈ data, entryCountsOk e = true) :
    filesComp data = mapPaths (issueFilterSpec data) := by
  induction data with
  | nil => rfl
  | cons e rest ih =>
    have he := h e (by simp)
    have hrest := ih (fun x hx => h x (by simp [hx]))
    simp only [filesComp, flaggedE_spec e he, issueFilterSpec, List.filter, bind,
      Except.bind, pure, Except.pure]
    cases specFlagged e <;>
      simp [issueFilterSpec, hrest, mapPaths, bind, Except.bind, pure, Except.pure]




theorem emitAux_noNl (l : List Char) (h : l.contains (Char.ofNat 10) = false) :
    emitAux l = [l] := by
  induction l with
  | nil => rfl
  | cons c cs ih =>
    simp only [List.contains_cons, Bool.or_eq_false_iff] at h
    obtain ⟨hc, hcs⟩ := h
    have hcne : ¬c = Char.ofNat 10 := by
      intro he
      subst he
      simp at hc
    simp only [emitAux, ih hcs, if_neg hcne]

theorem emit_noNl (s : String) (h : noNl s = true) : emit s = [s] := by
  simp only [noNl, Bool.not_eq_eq_eq_not, Bool.not_true] at h
  cases s with
  | mk l => simp [emit, emitAux_noNl l h]

theorem emit_nl_prefix (s : String) (h : noNl s = true) :
    emit ("\n" ++ s) = ["", s] := by
  simp only [noNl, Bool.not_eq_eq_eq_not, Bool.not_true] at h
  cases s with
  | mk l =>
    have hd : ("\n" ++ String.mk l).data = Char.ofNat 10 :: l := by
      simp [String.data_append]
    simp [emit, hd, emitAux, emitAux_noNl l h]

theorem digitChar_ne_nl (m : Nat) (hm : m < 16) :
    (Nat.digitChar m == Char.ofNat 10) = false := by
  interval_cases m <;> decide

theorem toDigitsCore_no_nl (f : Nat) : ∀ (n : Nat) (ds : List Char),
    ds.contains (Char.ofNat 10) = false →
    (Nat.toDigitsCore 10 f n ds).contains (Char.ofNat 10) = false := by
  induction f with
  | zero => intro n ds h; exact h
  | succ f ih =>
    intro n ds h
    simp only [Nat.toDigitsCore]
    have hcons : (Nat.digitChar (n % 10) :: ds).contains (Char.ofNat 10) = false := by
      simp only [List.contains_cons, Bool.or_eq_false_iff]
      constructor
      · rw [BEq.comm]
        exact digitChar_ne_nl (n % 10) (by omega)
      · exact h
    split
    · exact hcons
    · exact ih (n / 10) (Nat.digitChar (n % 10) :: ds) hcons

theorem noNl_natRepr (n : Nat) : noNl (Nat.repr n) = true := by
  simp only [Nat.repr, noNl, List.asString, Bool.not_eq_eq_eq_not, Bool.not_true]
  exact toDigitsCore_no_nl (n + 1) n [] rfl

theorem noNl_append (a b : String) (ha : noNl a = true) (hb : noNl b = true) :
    noNl (a ++ b) = true := by
  simp only [noNl, Bool.not_eq_eq_eq_not, Bool.not_true, String.data_append,
    List.contains_eq_any_beq, List.any_append, Bool.or_eq_false_iff] at *
  exact ⟨ha, hb⟩

theorem noNl_intRepr (n : Int) : noNl (Int.repr n) = true := by
  cases n with
  | ofNat m => simpa [Int.repr] using noNl_natRepr m
  | negSucc m =>
    simp only [Int.repr]
    exact noNl_append ("-") _ (by decide) (noNl_natRepr (m + 1))

theorem msgLine_obj (kvs : List (String × Json)) :
    msgLine (.obj kvs) = .ok (msgLineStr (.obj kvs)) := by
  simp [msgLine, msgLineStr, pyGetD, pyGet, objFieldD, bind, Except.bind, pure, Except.pure]

theorem msgLine_renderOk (m : Json) (h : msgRenderOk m = true) :
    msgLine m = .ok (msgLineStr m) := by
  cases m with
  | obj kvs => exact msgLine_obj kvs
  | null => simp [msgRenderOk] at h
  | bool b => simp [msgRenderOk] at h
  | num n => simp [msgRenderOk] at h
  | str s => simp [msgRenderOk] at h
  | arr xs => simp [msgRenderOk] at h

theorem renderOk_isObj (e : Json) (h : entryRenderOk e = true) : isObj e = true := by
  cases e <;> simp [entryRenderOk, isObj] at h ⊢

theorem compactEntry_renderOk (e : Json) (h : entryRenderOk e = true) :
    compactEntry e = .ok (compactLine e) ∧ noNl (compactLine e) = true := by
  cases e with
  | obj kvs =>
    simp only [entryRenderOk, Bool.and_eq_true] at h
    obtain ⟨h1, h2⟩ := h
    cases hp : dictGet kvs ("filePath") with
    | none => rw [hp] at h1; simp at h1
    | some v =>
      rw [hp] at h1
      cases v with
      | str s =>
        have hcount : noNl (toString (countOfMsgs (Json.obj kvs))) = true :=
          noNl_natRepr (countOfMsgs (Json.obj kvs))
        have hline : noNl (compactLine (Json.obj kvs)) = true := by
          simp only [compactLine, pathOf, hp, Option.getD, pyStr]
          exact noNl_append _ _
            (noNl_append _ _ (noNl_append _ _ h1 (by decide)) hcount) (by decide)
        refine ⟨?_, hline⟩
        cases hm : dictGet kvs ("messages") with
        | none =>
          simp [compactEntry, pyGetD, pyGet, hm, hp, pyLen, pySubscript, compactLine,
            pathOf, countOfMsgs, msgsOf, bind, Except.bind, pure, Except.pure]
        | some mv =>
          rw [hm] at h2
          cases mv with
          | arr ms =>
            simp [compactEntry, pyGetD, pyGet, hm, hp, pyLen, pySubscript, compactLine,
              pathOf, countOfMsgs, msgsOf, bind, Except.bind, pure, Except.pure]
          | null => simp at h2
          | bool b => simp at h2
          | num n => simp at h2
          | str s2 => simp at h2
          | obj kvs2 => simp at h2
      | null => simp at h1
      | bool b => simp at h1
      | num n => simp at h1
      | arr xs => simp at h1
      | obj kvs2 => simp at h1
  | null => simp [entryRenderOk] at h
  | bool b => simp [entryRenderOk] at h
  | num n => simp [entryRenderOk] at h
  | str s => simp [entryRenderOk] at h
  | arr xs => simp [entryRenderOk] at h

theorem runLines_map (f : Json → Except String String) (g : Json → String) (l : List Json)
    (h : ∀ e ∈ l, f e = .ok (g e)) :
    runLines f l = ((l.map (fun e => emit (g e))).flatten, none) := by
  induction l with
  | nil => rfl
  | cons e rest ih =>
    simp [runLines, h e (by simp), ih (fun x hx => h x (by simp [hx]))]

theorem runBlocks_ok (f : Json → List String × Option String) (l : List Json)
    (h : ∀ e ∈ l, (f e).2 = none) :
    runBlocks f l = ((l.map (fun e => (f e).1)).flatten, none) := by
  induction l with
  | nil => rfl
  | cons e rest ih =>
    have he := h e (by simp)
    have hr := ih (fun x hx => h x (by simp [hx]))
    rcases hfe : f e with ⟨ls, o⟩
    rw [hfe] at he
    simp only at he
    subst he
    simp [runBlocks, hfe, hr]

theorem detailedEntry_renderOk (e : Json) (h : entryRenderOk e = true) :
    (detailedEntry e).2 = none := by
  cases e with
  | obj kvs =>
    simp only [entryRenderOk, Bool.and_eq_true] at h
    obtain ⟨h1, h2⟩ := h
    cases hp : dictGet kvs ("filePath") with
    | none => rw [hp] at h1; simp at h1
    | some v =>
      rw [hp] at h1
      cases v with
      | str s =>
        cases hm : dictGet kvs ("messages") with
        | none =>
          simp [detailedEntry, pySubscript, hp, pyGetD, pyGet, hm, pyIter, runLines,
            bind, Except.bind, pure, Except.pure]
        | some mv =>
          rw [hm] at h2
          cases mv with
          | arr ms =>
            have hms : ∀ m ∈ ms, msgLine m = .ok (msgLineStr m) := by
              intro m hmm
              exact msgLine_renderOk m (by
                simp only [List.all_eq_true] at h2
                exact h2 m hmm)
            simp [detailedEntry, pySubscript, hp, pyGetD, pyGet, hm, pyIter,
              runLines_map msgLine msgLineStr ms hms, bind, Except.bind, pure, Except.pure]
          | null => simp at h2
          | bool b => simp at h2
          | num n => simp at h2
          | str s2 => simp at h2
          | obj kvs2 => simp at h2
      | null => simp at h1
      | bool b => simp at h1
      | num n => simp at h1
      | arr xs => simp at h1
      | obj kvs2 => simp at h1
  | null => simp [entryRenderOk] at h
  | bool b => simp [entryRenderOk] at h
  | num n => simp [entryRenderOk] at h
  | str s => simp [entryRenderOk] at h
  | arr xs => simp [entryRenderOk] at h

theorem entriesComp_objs (data : List Json) (h : ∀ e ∈ data, isObj e = true) :
    entriesComp data = .ok (data.filter codeFlagged) := by
  induction data with
  | nil => rfl
  | cons e rest ih =>
    have he := h e (by simp)
    obtain ⟨kvs, rfl⟩ : ∃ kvs, e = .obj kvs := by
      cases e <;> simp [isObj] at he ⊢
    have hr := ih (fun x hx => h x (by simp [hx]))
    simp only [entriesComp, flaggedE_obj, hr, List.filter, bind, Except.bind, pure,
      Except.pure]
    cases codeFlagged (.obj kvs) <;> simp

theorem flaggedE_nonobj (e : Json) (h : isObj e = false) :
    flaggedE e = .error ("AttributeError") := by
  cases e with
  | obj kvs => simp [isObj] at h
  | null => rfl
  | bool b => rfl
  | num n => rfl
  | str s => rfl
  | arr xs => rfl

theorem entriesComp_err (data : List Json) (h : ∃ e ∈ data, isObj e = false) :
    ∃ s, entriesComp data = .error s := by
  induction data with
  | nil => simp at h
  | cons e rest ih =>
    by_cases he : isObj e = true
    · obtain ⟨kvs, rfl⟩ : ∃ kvs, e = .obj kvs := by
        cases e <;> simp [isObj] at he ⊢
      have hrest : ∃ x ∈ rest, isObj x = false := by
        rcases h with ⟨x, hx, hfx⟩
        rcases List.mem_cons.mp hx with rfl | hx2
        · rw [he] at hfx; cases hfx
        · exact ⟨x, hx2, hfx⟩
      obtain ⟨s, hs⟩ := ih hrest
      exact ⟨s, by simp [entriesComp, flaggedE_obj, hs, bind, Except.bind]⟩
    · have he2 : isObj e = false := by simpa using he
      exact ⟨"AttributeError", by
        simp [entriesComp, flaggedE_nonobj e he2, bind, Except.bind]⟩

theorem filesComp_err (data : List Json) (h : ∃ e ∈ data, isObj e = false) :
    ∃ s, filesComp data = .error s := by
  induction data with
  | nil => simp at h
  | cons e rest ih =>
    by_cases he : isObj e = true
    · obtain ⟨kvs, rfl⟩ : ∃ kvs, e = .obj kvs := by
        cases e <;> simp [isObj] at he ⊢
      have hrest : ∃ x ∈ rest, isObj x = false := by
        rcases h with ⟨x, hx, hfx⟩
        rcases List.mem_cons.mp hx with rfl | hx2
        · rw [he] at hfx; cases hfx
        · exact ⟨x, hx2, hfx⟩
      obtain ⟨s, hs⟩ := ih hrest
      cases hcf : codeFlagged (.obj kvs) with
      | false =>
        exact ⟨s, by simp [filesComp, flaggedE_obj, hcf, hs, bind, Except.bind]⟩
      | true =>
        cases hps : pySubscript (.obj kvs) ("filePath") with
        | error s2 =>
          exact ⟨s2, by simp [filesComp, flaggedE_obj, hcf, hps, bind, Except.bind]⟩
        | ok p =>
          exact ⟨s, by simp [filesComp, flaggedE_obj, hcf, hps, hs, bind, Except.bind]⟩
    · have he2 : isObj e = false := by simpa using he
      exact ⟨"AttributeError", by
        simp [filesComp, flaggedE_nonobj e he2, bind, Except.bind]⟩

theorem flatten_singletons {α β : Type} (g : α → β) (l : List α) :
    (l.map (fun e => [g e])).flatten = l.map g := by
  induction l with
  | nil => rfl
  | cons e rest ih => simp [ih]

/-- C1: for every report whose entries are objects with non-negative
integer or absent errorCount/warningCount fields, the filtering step
used by all three scripts produces exactly the entries with
errorCount > 0 or warningCount > 0 (absent counts treated as zero), in
their original relative order, and no others: the entries comprehension
of both summary scripts equals the spec's IssueFilter, and the
lint_files comprehension equals the filePath subscript mapped over the
spec's IssueFilter. -/
theorem C1_issue_filter (data : List Json) (h : ∀ e ∈ data, entryCountsOk e = true) :
    entriesComp data = .ok (issueFilterSpec data) ∧
    filesComp data = mapPaths (issueFilterSpec data) :=
  ⟨entriesComp_spec data h, filesComp_spec data h⟩

/-- Witness for C1 at a concrete three-entry report: one flagged entry,
one with zero counts, one with absent counts. -/
theorem C1_issue_filter_witness :
    entriesComp
        [Json.obj [("filePath", Json.str ("a.ts")), ("errorCount", Json.num 1)],
         Json.obj [("filePath", Json.str ("b.ts")), ("errorCount", Json.num 0)],
         Json.obj [("filePath", Json.str ("c.ts"))]] =
      .ok (issueFilterSpec
        [Json.obj [("filePath", Json.str ("a.ts")), ("errorCount", Json.num 1)],
         Json.obj [("filePath", Json.str ("b.ts")), ("errorCount", Json.num 0)],
         Json.obj [("filePath", Json.str ("c.ts"))]]) ∧
    filesComp
        [Json.obj [("filePath", Json.str ("a.ts")), ("errorCount", Json.num 1)],
         Json.obj [("filePath", Json.str ("b.ts")), ("errorCount", Json.num 0)],
         Json.obj [("filePath", Json.str ("c.ts"))]] =
      mapPaths (issueFilterSpec
        [Json.obj [("filePath", Json.str ("a.ts")), ("errorCount", Json.num 1)],
         Json.obj [("filePath", Json.str ("b.ts")), ("errorCount", Json.num 0)],
         Json.obj [("filePath", Json.str ("c.ts"))]]) :=
  C1_issue_filter
    [Json.obj [("filePath", Json.str ("a.ts")), ("errorCount", Json.num 1)],
     Json.obj [("filePath", Json.str ("b.ts")), ("errorCount", Json.num 0)],
     Json.obj [("filePath", Json.str ("c.ts"))]]
    (by decide)

/-- C3: when the report file is missing, lint_report_summary and
lint_summary terminate with SystemExit (non-zero exit status) carrying
the descriptive message that names the report and instructs the user to
run the analyzer first, and no summary output is produced. -/
theorem C3_missing_report_exit :
    lint_report_summary ReportFile.missing =
      .exitErr ("lint-report.json not found. Run eslint with JSON output first.") ∧
    lint_summary ReportFile.missing =
      .exitErr ("lint-report.json not found. Run eslint with JSON output first.") :=
  ⟨rfl, rfl⟩

/-- C4 counterexample: lint_files performs no existence check, so on a
missing report it does not terminate with the descriptive SystemExit
message; it dies with an uncaught FileNotFoundError instead. -/
theorem C4_counterexample :
    lint_files ReportFile.missing = Outcome.exc ("FileNotFoundError") [] ∧
    isSystemExit (lint_files ReportFile.missing) = false :=
  ⟨rfl, rfl⟩

/-- C4 amended: on a missing report lint_files terminates abnormally
(uncaught FileNotFoundError, non-zero exit, no output) but without the
descriptive generate-the-report message; only lint_report_summary and
lint_summary check existence and exit with that message. -/
theorem C4_amended :
    lint_files ReportFile.missing = Outcome.exc ("FileNotFoundError") [] ∧
    isSystemExit (lint_report_summary ReportFile.missing) = true ∧
    isSystemExit (lint_summary ReportFile.missing) = true :=
  ⟨rfl, rfl, rfl⟩

/-- C8: on the one-entry Scenario B report, lint_files prints exactly
a.ts; lint_report_summary prints the header then the per-entry line;
lint_summary prints the header, a blank line, the path, and the message
line. -/
theorem C8_scenario_b :
    lint_files (.content (.arr [Json.obj [("filePath", Json.str ("a.ts")),
        ("errorCount", Json.num 2), ("warningCount", Json.num 0),
        ("messages", Json.arr [Json.obj [("ruleId", Json.str ("no-unused-vars")),
          ("message", Json.str ("x is unused")), ("line", Json.num 3),
          ("column", Json.num 5)]])]])) = .ok (["a.ts"]) ∧
    lint_report_summary (.content (.arr [Json.obj [("filePath", Json.str ("a.ts")),
        ("errorCount", Json.num 2), ("warningCount", Json.num 0),
        ("messages", Json.arr [Json.obj [("ruleId", Json.str ("no-unused-vars")),
          ("message", Json.str ("x is unused")), ("line", Json.num 3),
          ("column", Json.num 5)]])]])) =
      .ok (["1 files with issues", "a.ts - 1 messages"]) ∧
    lint_summary (.content (.arr [Json.obj [("filePath", Json.str ("a.ts")),
        ("errorCount", Json.num 2), ("warningCount", Json.num 0),
        ("messages", Json.arr [Json.obj [("ruleId", Json.str ("no-unused-vars")),
          ("message", Json.str ("x is unused")), ("line", Json.num 3),
          ("column", Json.num 5)]])]])) =
      .ok (["1 files with issues", "", "a.ts", "  no-unused-vars: x is unused @3:5"]) :=
  ⟨rfl, rfl, rfl⟩

/-- C9: a ruleId or message key present but bound to JSON null renders
as the Python value None (printed "None"), not as the sentinel; the
sentinel applies only when the key is entirely absent. -/
theorem C9_null_renders_none :
    msgLine (Json.obj [("ruleId", Json.null)]) = .ok ("  None: <no-message> @0:0") ∧
    msgLine (Json.obj [("message", Json.null)]) = .ok ("  <no-rule>: None @0:0") ∧
    msgLine (Json.obj [("ruleId", Json.null), ("message", Json.null)]) =
      .ok ("  None: None @0:0") ∧
    lint_summary (.content (.arr [Json.obj [("filePath", Json.str ("a.ts")),
        ("errorCount", Json.num 1),
        ("messages", Json.arr [Json.obj [("ruleId", Json.null), ("message", Json.null),
          ("line", Json.num 1), ("column", Json.num 2)]])]])) =
      .ok (["1 files with issues", "", "a.ts", "  None: None @1:2"]) :=
  ⟨rfl, rfl, rfl, rfl⟩

/-- C6: a FileEntry with a positive errorCount but an empty or absent
messages sequence is still included by the filter; CompactSummary prints
it with a message count of 0, and DetailedSummary prints its filePath
line (after the blank separator) with no indented message lines. -/
theorem C6_flagged_without_messages (p : String) (n : Int) (hn : 0 < n) (hp : noNl p = true) :
    flaggedE (Json.obj [("filePath", Json.str p), ("errorCount", Json.num n)]) = .ok true ∧
    compactEntry (Json.obj [("filePath", Json.str p), ("errorCount", Json.num n)]) =
      .ok (p ++ " - 0 messages") ∧
    detailedEntry (Json.obj [("filePath", Json.str p), ("errorCount", Json.num n)]) =
      (["", p], none) ∧
    flaggedE (Json.obj [("filePath", Json.str p), ("errorCount", Json.num n),
      ("messages", Json.arr [])]) = .ok true ∧
    compactEntry (Json.obj [("filePath", Json.str p), ("errorCount", Json.num n),
      ("messages", Json.arr [])]) = .ok (p ++ " - 0 messages") ∧
    detailedEntry (Json.obj [("filePath", Json.str p), ("errorCount", Json.num n),
      ("messages", Json.arr [])]) = (["", p], none) := by
  have hne : ¬n = 0 := by omega
  have hc1 : compactEntry (Json.obj [("filePath", Json.str p), ("errorCount", Json.num n)]) =
      Except.ok (p ++ " - " ++ toString ((0 : Nat)) ++ " messages") := rfl
  have hc2 : compactEntry (Json.obj [("filePath", Json.str p), ("errorCount", Json.num n),
      ("messages", Json.arr [])]) =
      Except.ok (p ++ " - " ++ toString ((0 : Nat)) ++ " messages") := rfl
  refine ⟨?_, ?_, ?_, ?_, ?_, ?_⟩
  · simp [flaggedE, pyGet, dictGet, optTruthy, truthy, hne, bind, Except.bind, pure,
      Except.pure]
  · rw [hc1, String.append_assoc, String.append_assoc]
    rfl
  · simp [detailedEntry, pySubscript, dictGet, pyGetD, pyGet, pyIter, runLines, pyStr,
      emit_nl_prefix p hp, bind, Except.bind, pure, Except.pure]
  · simp [flaggedE, pyGet, dictGet, optTruthy, truthy, hne, bind, Except.bind, pure,
      Except.pure]
  · rw [hc2, String.append_assoc, String.append_assoc]
    rfl
  · simp [detailedEntry, pySubscript, dictGet, pyGetD, pyGet, pyIter, runLines, pyStr,
      emit_nl_prefix p hp, bind, Except.bind, pure, Except.pure]

/-- Witness for C6 at p = a.ts and errorCount 1. -/
theorem C6_flagged_without_messages_witness :
    flaggedE (Json.obj [("filePath", Json.str ("a.ts")), ("errorCount", Json.num 1)]) =
      .ok true ∧
    compactEntry (Json.obj [("filePath", Json.str ("a.ts")), ("errorCount", Json.num 1)]) =
      .ok ("a.ts" ++ " - 0 messages") ∧
    detailedEntry (Json.obj [("filePath", Json.str ("a.ts")), ("errorCount", Json.num 1)]) =
      (["", "a.ts"], none) ∧
    flaggedE (Json.obj [("filePath", Json.str ("a.ts")), ("errorCount", Json.num 1),
      ("messages", Json.arr [])]) = .ok true ∧
    compactEntry (Json.obj [("filePath", Json.str ("a.ts")), ("errorCount", Json.num 1),
      ("messages", Json.arr [])]) = .ok ("a.ts" ++ " - 0 messages") ∧
    detailedEntry (Json.obj [("filePath", Json.str ("a.ts")), ("errorCount", Json.num 1),
      ("messages", Json.arr [])]) = (["", "a.ts"], none) :=
  C6_flagged_without_messages ("a.ts") 1 (by decide) (by decide)

/-- C7: a message lacking ruleId, message, line and column renders with
both sentinels at position 0:0, and a FileEntry lacking both count keys
is unflagged and excluded by the filter. -/
theorem C7_missing_field_defaults (mkvs kvs : List (String × Json))
    (h1 : dictGet mkvs ("ruleId") = none) (h2 : dictGet mkvs ("message") = none)
    (h3 : dictGet mkvs ("line") = none) (h4 : dictGet mkvs ("column") = none)
    (h5 : dictGet kvs ("errorCount") = none) (h6 : dictGet kvs ("warningCount") = none) :
    msgLine (Json.obj mkvs) = .ok ("  <no-rule>: <no-message> @0:0") ∧
    flaggedE (Json.obj kvs) = .ok false ∧
    entriesComp [Json.obj kvs] = .ok [] := by
  refine ⟨?_, ?_, ?_⟩
  · simp only [msgLine, pyGetD, pyGet, h1, h2, h3, h4, pyStr, bind, Except.bind, pure,
      Except.pure, Option.getD]
    rfl
  · simp [flaggedE, pyGet, h5, h6, optTruthy, bind, Except.bind, pure, Except.pure]
  · simp [entriesComp, flaggedE, pyGet, h5, h6, optTruthy, bind, Except.bind, pure,
      Except.pure]

/-- Witness for C7 at empty message and entry objects. -/
theorem C7_missing_field_defaults_witness :
    msgLine (Json.obj []) = .ok ("  <no-rule>: <no-message> @0:0") ∧
    flaggedE (Json.obj []) = .ok false ∧
    entriesComp [Json.obj []] = .ok [] :=
  C7_missing_field_defaults [] [] rfl rfl rfl rfl rfl rfl

/-- C10: the filter tests Python truthiness of the count fields rather
than the comparison with zero, so any truthy value flags the entry, a
negative count such as -1 included; on a report whose single entry has
errorCount -1 all three scripts treat the entry as flagged. -/
theorem C10_truthiness_filter (v : Json) (h : truthy v = true) :
    flaggedE (Json.obj [("errorCount", v)]) = .ok true ∧
    flaggedE (Json.obj [("warningCount", v)]) = .ok true ∧
    entriesComp [Json.obj [("filePath", Json.str ("neg.ts")), ("errorCount", Json.num (-1))]] =
      .ok [Json.obj [("filePath", Json.str ("neg.ts")), ("errorCount", Json.num (-1))]] ∧
    lint_files (.content (.arr [Json.obj [("filePath", Json.str ("neg.ts")),
      ("errorCount", Json.num (-1))]])) = .ok (["neg.ts"]) ∧
    lint_report_summary (.content (.arr [Json.obj [("filePath", Json.str ("neg.ts")),
      ("errorCount", Json.num (-1))]])) =
      .ok (["1 files with issues", "neg.ts - 0 messages"]) ∧
    lint_summary (.content (.arr [Json.obj [("filePath", Json.str ("neg.ts")),
      ("errorCount", Json.num (-1))]])) = .ok (["1 files with issues", "", "neg.ts"]) := by
  refine ⟨?_, ?_, rfl, rfl, rfl, rfl⟩
  · simp [flaggedE, pyGet, dictGet, optTruthy, h, bind, Except.bind, pure, Except.pure]
  · simp [flaggedE, pyGet, dictGet, optTruthy, h, bind, Except.bind, pure, Except.pure]

/-- Witness for C10 at the truthy value -1. -/
theorem C10_truthiness_filter_witness :
    flaggedE (Json.obj [("errorCount", Json.num (-1))]) = .ok true ∧
    flaggedE (Json.obj [("warningCount", Json.num (-1))]) = .ok true ∧
    entriesComp [Json.obj [("filePath", Json.str ("neg.ts")), ("errorCount", Json.num (-1))]] =
      .ok [Json.obj [("filePath", Json.str ("neg.ts")), ("errorCount", Json.num (-1))]] ∧
    lint_files (.content (.arr [Json.obj [("filePath", Json.str ("neg.ts")),
      ("errorCount", Json.num (-1))]])) = .ok (["neg.ts"]) ∧
    lint_report_summary (.content (.arr [Json.obj [("filePath", Json.str ("neg.ts")),
      ("errorCount", Json.num (-1))]])) =
      .ok (["1 files with issues", "neg.ts - 0 messages"]) ∧
    lint_summary (.content (.arr [Json.obj [("filePath", Json.str ("neg.ts")),
      ("errorCount", Json.num (-1))]])) = .ok (["1 files with issues", "", "neg.ts"]) :=
  C10_truthiness_filter (Json.num (-1)) (by decide)

theorem badTop_errs (j : Json) (hj : badTop j = true) :
    (∃ s, pyIter j = .error s) ∨
    (∃ xs, pyIter j = .ok xs ∧ (∃ x ∈ xs, isObj x = false)) := by
  cases j with
  | null => exact .inl ⟨"TypeError", rfl⟩
  | bool b => exact .inl ⟨"TypeError", rfl⟩
  | num n => exact .inl ⟨"TypeError", rfl⟩
  | str s =>
    right
    refine ⟨_, rfl, ?_⟩
    simp only [badTop, Bool.not_eq_eq_eq_not, Bool.not_true] at hj
    cases hd : s.data with
    | nil => rw [hd] at hj; simp at hj
    | cons c cs =>
      exact ⟨Json.str (String.mk [c]), by simp, rfl⟩
  | obj kvs =>
    right
    refine ⟨_, rfl, ?_⟩
    simp only [badTop, Bool.not_eq_eq_eq_not, Bool.not_true] at hj
    cases kvs with
    | nil => simp at hj
    | cons q rest => exact ⟨Json.str q.1, by simp, rfl⟩
  | arr xs =>
    right
    refine ⟨xs, rfl, ?_⟩
    simp only [badTop, List.any_eq_true, Bool.not_eq_eq_eq_not, Bool.not_true] at hj
    exact hj

/-- C5 counterexample: an empty JSON object (and for lint_files also an
empty string) is not an array of objects, yet the scripts accept it
silently and succeed with the empty-report output instead of
terminating. -/
theorem C5_counterexample :
    lint_report_summary (.content (Json.obj [])) = Outcome.ok (["0 files with issues"]) ∧
    lint_summary (.content (Json.obj [])) = Outcome.ok (["0 files with issues"]) ∧
    lint_files (.content (Json.obj [])) = Outcome.ok [] ∧
    lint_files (.content (Json.str (""))) = Outcome.ok [] :=
  ⟨rfl, rfl, rfl, rfl⟩

/-- C5 amended: invalid JSON terminates every script before any output,
and so does every top-level value other than an array of objects except
the empty object and the empty string, which iterate zero times and are
silently accepted as an empty report. -/
theorem C5_amended (j : Json) (hj : badTop j = true) :
    isExcEmpty (lint_files (.content j)) = true ∧
    isExcEmpty (lint_report_summary (.content j)) = true ∧
    isExcEmpty (lint_summary (.content j)) = true ∧
    lint_files ReportFile.invalidJson = Outcome.exc ("JSONDecodeError") [] ∧
    lint_report_summary ReportFile.invalidJson = Outcome.exc ("JSONDecodeError") [] ∧
    lint_summary ReportFile.invalidJson = Outcome.exc ("JSONDecodeError") [] := by
  rcases badTop_errs j hj with ⟨s, hs⟩ | ⟨xs, hxs, hbad⟩
  · refine ⟨?_, ?_, ?_, rfl, rfl, rfl⟩ <;>
      simp [lint_files, lint_report_summary, lint_summary, hs, isExcEmpty]
  · obtain ⟨s1, h1⟩ := entriesComp_err xs hbad
    obtain ⟨s2, h2⟩ := filesComp_err xs hbad
    refine ⟨?_, ?_, ?_, rfl, rfl, rfl⟩
    · simp [lint_files, hxs, h2, isExcEmpty]
    · simp [lint_report_summary, hxs, h1, isExcEmpty]
    · simp [lint_summary, hxs, h1, isExcEmpty]

/-- Witness for C5 amended at the top-level value null. -/
theorem C5_amended_witness :
    isExcEmpty (lint_files (.content Json.null)) = true ∧
    isExcEmpty (lint_report_summary (.content Json.null)) = true ∧
    isExcEmpty (lint_summary (.content Json.null)) = true ∧
    lint_files ReportFile.invalidJson = Outcome.exc ("JSONDecodeError") [] ∧
    lint_report_summary ReportFile.invalidJson = Outcome.exc ("JSONDecodeError") [] ∧
    lint_summary ReportFile.invalidJson = Outcome.exc ("JSONDecodeError") [] :=
  C5_amended Json.null (by decide)

/-- C2: on any report of well-formed entries, CompactSummary prints the
header and then at most 20 per-entry lines (the first 20 flagged entries,
the rest silently omitted while the header still counts them all), and
DetailedSummary prints the header and exactly one block per flagged
entry with no cap; in particular on the 25-entry Scenario D report
CompactSummary lists exactly 20 entries and DetailedSummary all 25. -/
theorem C2_compact_cap_detailed_uncapped (data : List Json)
    (h : ∀ e ∈ data, entryRenderOk e = true) :
    lint_report_summary (.content (.arr data)) =
      .ok (headerLine (data.filter codeFlagged).length ::
        ((data.filter codeFlagged).take 20).map compactLine) ∧
    (((data.filter codeFlagged).take 20).map compactLine).length ≤ 20 ∧
    lint_summary (.content (.arr data)) =
      .ok (headerLine (data.filter codeFlagged).length ::
        ((data.filter codeFlagged).map (fun e => (detailedEntry e).1)).flatten) ∧
    lint_report_summary (.content (.arr report25)) =
      .ok (headerLine 25 ::
        (List.range 20).map (fun i => "f" ++ toString i ++ " - 0 messages")) ∧
    lint_summary (.content (.arr report25)) =
      .ok (headerLine 25 :: ((List.range 25).map (fun i => ["", "f" ++ toString i])).flatten) := by
  have hobj : ∀ e ∈ data, isObj e = true := fun e he => renderOk_isObj e (h e he)
  have hF := entriesComp_objs data hobj
  have hFsub : ∀ e ∈ data.filter codeFlagged, entryRenderOk e = true :=
    fun e he => h e (List.mem_of_mem_filter he)
  have htake : ∀ e ∈ (data.filter codeFlagged).take 20, entryRenderOk e = true :=
    fun e he => hFsub e (List.take_subset 20 (data.filter codeFlagged) he)
  have hcompact : ∀ e ∈ (data.filter codeFlagged).take 20, compactEntry e = .ok (compactLine e) :=
    fun e he => (compactEntry_renderOk e (htake e he)).1
  have hrun := runLines_map compactEntry compactLine ((data.filter codeFlagged).take 20) hcompact
  have hemit : ∀ e ∈ (data.filter codeFlagged).take 20, emit (compactLine e) = [compactLine e] :=
    fun e he => emit_noNl _ (compactEntry_renderOk e (htake e he)).2
  have hlines : (((data.filter codeFlagged).take 20).map (fun e => emit (compactLine e))).flatten
      = ((data.filter codeFlagged).take 20).map compactLine := by
    rw [List.map_congr_left hemit]
    exact flatten_singletons compactLine ((data.filter codeFlagged).take 20)
  have hdet : ∀ e ∈ data.filter codeFlagged, (detailedEntry e).2 = none :=
    fun e he => detailedEntry_renderOk e (hFsub e he)
  have hrunb := runBlocks_ok detailedEntry (data.filter codeFlagged) hdet
  refine ⟨?_, ?_, ?_, ?_, ?_⟩
  · simp only [lint_report_summary, pyIter, hF, hrun, hlines]
  · simp only [List.length_map, List.length_take]
    exact Nat.min_le_left _ _
  · simp only [lint_summary, pyIter, hF, hrunb]
  · rfl
  · rfl

/-- Witness for C2 at a one-entry report. -/
theorem C2_compact_cap_detailed_uncapped_witness :
    lint_report_summary (.content (.arr [Json.obj [("filePath", Json.str ("a.ts")),
        ("errorCount", Json.num 1)]])) =
      .ok (headerLine ([Json.obj [("filePath", Json.str ("a.ts")),
          ("errorCount", Json.num 1)]].filter codeFlagged).length ::
        (([Json.obj [("filePath", Json.str ("a.ts")),
          ("errorCount", Json.num 1)]].filter codeFlagged).take 20).map compactLine) ∧
    ((([Json.obj [("filePath", Json.str ("a.ts")),
        ("errorCount", Json.num 1)]].filter codeFlagged).take 20).map compactLine).length ≤ 20 ∧
    lint_summary (.content (.arr [Json.obj [("filePath", Json.str ("a.ts")),
        ("errorCount", Json.num 1)]])) =
      .ok (headerLine ([Json.obj [("filePath", Json.str ("a.ts")),
          ("errorCount", Json.num 1)]].filter codeFlagged).length ::
        (([Json.obj [("filePath", Json.str ("a.ts")),
          ("errorCount", Json.num 1)]].filter codeFlagged).map
            (fun e => (detailedEntry e).1)).flatten) ∧
    lint_report_summary (.content (.arr report25)) =
      .ok (headerLine 25 ::
        (List.range 20).map (fun i => "f" ++ toString i ++ " - 0 messages")) ∧
    lint_summary (.content (.arr report25)) =
      .ok (headerLine 25 :: ((List.range 25).map (fun i => ["", "f" ++ toString i])).flatten) :=
  C2_compact_cap_detailed_uncapped
    [Json.obj [("filePath", Json.str ("a.ts")), ("errorCount", Json.num 1)]] (by decide)
